import Mathlib

/-!
Shallow embedding of the SpotAlert backend (src/server.js, with the
consolidated variant src/public/server.js where the two differ), covering
the alert ingestion and usage-accounting flow:

  POST /trigger-alert   upload, detect, classify, record, meter, notify
  GET  /api/usage-summary
  POST /api/usage-reset

Currency amounts (JS numbers in the source, always multiples of 0.001
USD in this flow) are modelled exactly as integers in milli-USD, the
fixed-point currency unit of the spec; ISO-8601 timestamp strings, which the source compares with
SQL string comparison (correct lexicographic order for ISO strings),
are modelled as natural numbers compared with the usual order.
External collaborators (S3, Rekognition, SES) are modelled by their
outcomes, supplied as inputs to the handler.
-/

namespace SpotAlert

/-- CONFIG.SES_TO_EMAIL from src/server.js line 41, the default recipient. -/
def SES_TO_EMAIL : String := "admin@spotalert.live"

/-- CONFIG.ALERT_SUBJECT from src/server.js line 42. -/
def ALERT_SUBJECT : String := "[SpotAlert] Unknown Face Detected"

/-- Subject of the top-up notification, src/server.js line 195. -/
def TOPUP_SUBJECT : String := "[SpotAlert] Top-Up Needed"

/-- PRICING.app from src/server.js line 49: 0.001 USD, i.e. 1 milli-USD. -/
def PRICING_app : ℤ := 1

/-- PRICING.email from src/server.js line 50: 0.002 USD, i.e. 2 milli-USD. -/
def PRICING_email : ℤ := 2

/-- The own numeric properties of the PLAN_LIMITS object literal,
src/server.js lines 55-60 (values in milli-USD). -/
def planLimitNum (p : String) : Option ℤ :=
  if p = "Free" then some 0
  else if p = "Standard" then some 5000
  else if p = "Premium" then some 10000
  else if p = "Elite" then some 25000
  else none

/-- Property names every JS object literal inherits from
Object.prototype; an index lookup with one of these keys resolves to the
inherited member (a function, or an object for __proto__), not to
undefined. -/
def protoKeys : List String :=
  ["constructor", "hasOwnProperty", "isPrototypeOf", "propertyIsEnumerable",
   "toLocaleString", "toString", "valueOf", "__proto__",
   "__defineGetter__", "__defineSetter__", "__lookupGetter__", "__lookupSetter__"]

/-- The JS values a PLAN_LIMITS[plan] lookup can produce: an own numeric
property, a truthy non-numeric member inherited from Object.prototype, or
undefined. -/
inductive JsVal where
  | num (n : ℤ)
  | fn
  | undef
deriving DecidableEq, Repr

/-- PLAN_LIMITS[p] as JS evaluates it on the object literal of
src/server.js lines 55-60: an own property yields its number; a key of
Object.prototype yields the truthy inherited member; any other key is
undefined. -/
def PLAN_LIMITS (p : String) : JsVal :=
  match planLimitNum p with
  | some l => JsVal.num l
  | none => if p ∈ protoKeys then JsVal.fn else JsVal.undef

/-- JS truthiness of such a value: 0 and undefined are falsy; nonzero
numbers and the inherited non-numeric members are truthy. -/
def jsTruthy : JsVal → Bool
  | JsVal.num n => !(decide (n = 0))
  | JsVal.fn => true
  | JsVal.undef => false

/-- JS `v || 0` on such a value. -/
def jsValOrZero (v : JsVal) : JsVal :=
  if jsTruthy v then v else JsVal.num 0

/-- True when the string is an Object.prototype property name. -/
def isProtoKey (p : String) : Bool := decide (p ∈ protoKeys)

/-- JS `s || d` on strings: the empty string is falsy. -/
def jsStrOr (s d : String) : String := if s = "" then d else s

/-- JS `x || d` on numbers: 0 is falsy. -/
def jsNumOr (x d : ℤ) : ℤ := if x = 0 then d else x

/-- One row of the usage_log table (src/server.js lines 89-96). -/
structure UsageEntry where
  user_email : String
  plan : String
  channel : String
  cost_usd : ℤ
  timestamp : Nat
deriving DecidableEq, Repr

/-- One row of the alerts table (src/server.js lines 82-87); the generated
id column is the position in the list. -/
structure AlertRow where
  type : String
  timestamp : Nat
  image : String
deriving DecidableEq, Repr

/-- The sqlite database state: both tables, in insertion order. -/
structure DB where
  alerts : List AlertRow
  usage_log : List UsageEntry
deriving DecidableEq, Repr

/-- The rows of usage_log matching `user_email = user AND timestamp >= since`,
the WHERE clause shared by checkAndTopUp (line 188) and /api/usage-summary
(line 341). -/
def monthEntries (log : List UsageEntry) (user : String) (since : Nat) :
    List UsageEntry :=
  log.filter (fun e => e.user_email == user && decide (since ≤ e.timestamp))

/-- Month-to-date summed cost for a recipient (sum over the month filter,
zero when nothing matches). -/
def mtdTotal (log : List UsageEntry) (user : String) (since : Nat) : ℤ :=
  ((monthEntries log user since).map (fun e => e.cost_usd)).sum

/-- SQL `SELECT SUM(cost_usd) ...` of src/server.js line 188: SUM over an
empty result set is NULL, modelled as none. -/
def sumUsage (log : List UsageEntry) (user : String) (since : Nat) :
    Option ℤ :=
  if (monthEntries log user since).isEmpty then none
  else some (mtdTotal log user since)

/-- JS `x > v` for a number x: a numeric comparison when v is a number;
against undefined, or against a non-numeric inherited member (which
coerces to NaN), every relational comparison is false. -/
def jsGtVal (x : ℤ) (v : JsVal) : Bool :=
  match v with
  | JsVal.num l => decide (l < x)
  | JsVal.fn => false
  | JsVal.undef => false

/-- The firing condition of checkAndTopUp in src/server.js lines 182-201:
`row && row.total && row.total > PLAN_LIMITS[plan]`. A NULL or zero total
is falsy; a plan name that is not an own property makes PLAN_LIMITS[plan]
undefined or a prototype-inherited member, and the comparison with either
is false. -/
def checkAndTopUp_fires (log : List UsageEntry) (user plan : String)
    (since : Nat) : Bool :=
  match sumUsage log user since with
  | none => false
  | some t => !(decide (t = 0)) && jsGtVal t (PLAN_LIMITS plan)

/-- The firing condition of checkAndTopUp in src/public/server.js lines
167-184: `row && row.total && row.total > (PLAN_LIMITS[plan] || 0)`. The
`|| 0` replaces only falsy lookup results (undefined, or the 0 of Free);
a truthy prototype-inherited member is kept and the comparison with it is
false. -/
def checkAndTopUp_public_fires (log : List UsageEntry) (user plan : String)
    (since : Nat) : Bool :=
  match sumUsage log user since with
  | none => false
  | some t => !(decide (t = 0)) && jsGtVal t (jsValOrZero (PLAN_LIMITS plan))

/-- Modelled from the spec: the plan ceiling with unknown plan names
defaulting to the zero-ceiling Free plan. -/
def planCeil_spec (p : String) : ℤ := (planLimitNum p).getD 0

/-- Modelled from the spec: the top-up notification fires iff the
month-to-date summed cost strictly exceeds the declared plan ceiling
(unknown plans treated as ceiling 0). -/
def topUpFires_spec (log : List UsageEntry) (user plan : String)
    (since : Nat) : Bool :=
  decide (planCeil_spec plan < mtdTotal log user since)

/-- One per-channel row of the /api/usage-summary response: the SQL
`SELECT channel, COUNT(*) as count, SUM(cost_usd) as total ... GROUP BY
channel` of src/server.js line 341. -/
structure SummaryRow where
  channel : String
  count : Nat
  total : ℤ
deriving DecidableEq, Repr

/-- The /api/usage-summary response body (src/server.js lines 346-351);
the source formats total_cost_usd with toFixed(3), kept exact here. -/
structure Summary where
  email : String
  total_cost_usd : ℤ
  details : List SummaryRow
deriving DecidableEq, Repr

/-- Distinct channels of a usage row list, in order of first occurrence,
as produced by GROUP BY channel. -/
def distinctChannels (l : List UsageEntry) : List String :=
  l.foldl (fun acc e => if acc.contains e.channel then acc else acc ++ [e.channel]) []

/-- GET /api/usage-summary from src/server.js lines 332-354: group the
month entries of the recipient by channel, then
`rows.reduce((a, b) => a + (b.total || 0), 0)` for the grand total. -/
def usageSummary (log : List UsageEntry) (email : String) (since : Nat) :
    Summary :=
  let m := monthEntries log email since
  let rows := (distinctChannels m).map (fun c =>
    let g := m.filter (fun e => e.channel == c)
    SummaryRow.mk c g.length ((g.map (fun e => e.cost_usd)).sum))
  let totalCost := rows.foldl (fun a b => a + jsNumOr b.total 0) 0
  Summary.mk email totalCost rows

/-- POST /api/usage-reset from src/server.js lines 357-362:
`DELETE FROM usage_log`. -/
def usageReset (db : DB) : DB := { db with usage_log := [] }

/-- One Rekognition face match (only its presence matters to the flow;
the similarity score is carried for fidelity). -/
structure FaceMatch where
  similarity : ℕ
deriving DecidableEq, Repr

/-- detectFaces from src/server.js lines 125-149: the whole body sits in a
try block whose catch logs the error and returns an empty list, so a
Face Match failure is swallowed and yields no matches. -/
def detectFaces (rekogResult : Except String (List FaceMatch)) :
    List FaceMatch :=
  match rekogResult with
  | Except.ok fs => fs
  | Except.error _ => []

/-- An outbound SES message, by recipient and subject. -/
structure EmailMsg where
  toAddr : String
  subject : String
deriving DecidableEq, Repr

/-- sendAlertEmail from src/server.js lines 152-170: defaults for a falsy
recipient or subject, then ses.send inside a try whose catch only logs.
Returns the attempted message and whether delivery succeeded. -/
def sendAlertEmail (ses : EmailMsg → Except String Unit) (recip subj : String) :
    EmailMsg × Bool :=
  let msg : EmailMsg := EmailMsg.mk (jsStrOr recip SES_TO_EMAIL) (jsStrOr subj ALERT_SUBJECT)
  match ses msg with
  | Except.ok _ => (msg, true)
  | Except.error _ => (msg, false)

/-- Inputs of one POST /trigger-alert call: the request fields and the
outcomes of the external S3 and Rekognition calls. `now` is the current
timestamp, `monthStart` the first-of-month instant both checkAndTopUp and
usage-summary compute. -/
structure TriggerInput where
  originalname : String
  planRaw : String
  emailRaw : String
  uploadResult : Except String Unit
  rekogResult : Except String (List FaceMatch)
  now : Nat
  monthStart : Nat
deriving Repr

/-- The storage key, src/server.js line 222:
`uploads/(Date.now())_(originalname)`. -/
def keyOf (inp : TriggerInput) : String :=
  "uploads/" ++ toString inp.now ++ "_" ++ inp.originalname

/-- The effective plan, src/server.js line 223: `req.body.plan || "Free"`. -/
def planOf (inp : TriggerInput) : String := jsStrOr inp.planRaw "Free"

/-- The effective recipient, src/server.js line 224:
`req.body.email || CONFIG.SES_TO_EMAIL`. -/
def userEmailOf (inp : TriggerInput) : String :=
  jsStrOr inp.emailRaw SES_TO_EMAIL

/-- The classification of the call, src/server.js line 229:
`faces.length > 0 ? "known_face" : "unknown_face"`. -/
def classificationOf (inp : TriggerInput) : String :=
  if 0 < (detectFaces inp.rekogResult).length then "known_face" else "unknown_face"

/-- The success response body, src/server.js line 250:
`{ ok: true, faces, key }`. -/
structure TriggerResult where
  ok : Bool
  faces : List FaceMatch
  key : String
deriving DecidableEq, Repr

/-- One observable step of the handler, in execution order. -/
inductive Event where
  | s3Upload (key : String)
  | rekogSearch
  | insertAlert (t : String) (key : String)
  | insertUsage (user plan channel : String) (cost : ℤ)
  | sesSend (msg : EmailMsg)
deriving DecidableEq, Repr

/-- Everything one /trigger-alert call produces: the database afterwards,
the S3 objects written, the HTTP response (error = the 500 branch of the
catch at src/server.js lines 251-254), the SES messages attempted with
their delivery outcome, and the ordered event trace. -/
structure HandlerOutcome where
  db : DB
  stored : List String
  response : Except String TriggerResult
  emails : List (EmailMsg × Bool)
  events : List Event
deriving Repr

/-- POST /trigger-alert from src/server.js lines 219-255. Order of
effects: uploadToS3, detectFaces, insert alert row, two usage inserts
(email then app), checkAndTopUp against the ledger including the fresh
inserts, and the unknown-face notification last. An upload failure is
caught and returned as the error response before anything is detected or
inserted; a Rekognition failure is swallowed inside detectFaces; SES
failures are swallowed inside sendAlertEmail. -/
def triggerAlert (db0 : DB) (inp : TriggerInput)
    (ses : EmailMsg → Except String Unit) : HandlerOutcome :=
  let key := keyOf inp
  let plan := planOf inp
  let userEmail := userEmailOf inp
  match inp.uploadResult with
  | Except.error e =>
      { db := db0, stored := [], response := Except.error e, emails := [],
        events := [Event.s3Upload key] }
  | Except.ok _ =>
      let faces := detectFaces inp.rekogResult
      let alertType := if 0 < faces.length then "known_face" else "unknown_face"
      let db1 : DB := { db0 with alerts := db0.alerts ++ [AlertRow.mk alertType inp.now key] }
      let db2 : DB := { db1 with usage_log := db1.usage_log ++
          [UsageEntry.mk userEmail plan "email" PRICING_email inp.now,
           UsageEntry.mk userEmail plan "app" PRICING_app inp.now] }
      let fires := checkAndTopUp_fires db2.usage_log userEmail plan inp.monthStart
      let topupEmails := if fires then [sendAlertEmail ses userEmail TOPUP_SUBJECT] else []
      let alertEmails := if faces.length = 0 then [sendAlertEmail ses userEmail ALERT_SUBJECT] else []
      { db := db2,
        stored := [key],
        response := Except.ok (TriggerResult.mk true faces key),
        emails := topupEmails ++ alertEmails,
        events := [Event.s3Upload key, Event.rekogSearch,
                   Event.insertAlert alertType key,
                   Event.insertUsage userEmail plan "email" PRICING_email,
                   Event.insertUsage userEmail plan "app" PRICING_app]
                  ++ topupEmails.map (fun m => Event.sesSend m.1)
                  ++ alertEmails.map (fun m => Event.sesSend m.1) }

/-- POST /trigger-alert from src/public/server.js lines 198-236: same
flow, except detectFaces runs before uploadToS3 (lines 206-207) and the
top-up check uses the `PLAN_LIMITS[plan] || 0` variant. -/
def triggerAlert_public (db0 : DB) (inp : TriggerInput)
    (ses : EmailMsg → Except String Unit) : HandlerOutcome :=
  let key := keyOf inp
  let plan := planOf inp
  let userEmail := userEmailOf inp
  let faces := detectFaces inp.rekogResult
  match inp.uploadResult with
  | Except.error e =>
      { db := db0, stored := [], response := Except.error e, emails := [],
        events := [Event.rekogSearch, Event.s3Upload key] }
  | Except.ok _ =>
      let alertType := if 0 < faces.length then "known_face" else "unknown_face"
      let db1 : DB := { db0 with alerts := db0.alerts ++ [AlertRow.mk alertType inp.now key] }
      let db2 : DB := { db1 with usage_log := db1.usage_log ++
          [UsageEntry.mk userEmail plan "email" PRICING_email inp.now,
           UsageEntry.mk userEmail plan "app" PRICING_app inp.now] }
      let fires := checkAndTopUp_public_fires db2.usage_log userEmail plan inp.monthStart
      let topupEmails := if fires then [sendAlertEmail ses userEmail TOPUP_SUBJECT] else []
      let alertEmails := if faces.length = 0 then [sendAlertEmail ses userEmail ALERT_SUBJECT] else []
      { db := db2,
        stored := [key],
        response := Except.ok (TriggerResult.mk true faces key),
        emails := topupEmails ++ alertEmails,
        events := [Event.rekogSearch, Event.s3Upload key,
                   Event.insertAlert alertType key,
                   Event.insertUsage userEmail plan "email" PRICING_email,
                   Event.insertUsage userEmail plan "app" PRICING_app]
                  ++ topupEmails.map (fun m => Event.sesSend m.1)
                  ++ alertEmails.map (fun m => Event.sesSend m.1) }

/-- True exactly on upload events. -/
def isUploadEvent : Event → Bool
  | Event.s3Upload _ => true
  | _ => false

/-- True exactly on the Face Match invocation event. -/
def isRekogEvent : Event → Bool
  | Event.rekogSearch => true
  | _ => false

/-- The Face Match Client is invoked strictly before the Object Store
write in the given trace. -/
def classifyBeforePersist (evs : List Event) : Bool :=
  decide (evs.findIdx isRekogEvent < evs.findIdx isUploadEvent)

/-- True exactly on a success response. -/
def respOk : Except String TriggerResult → Bool
  | Except.ok _ => true
  | Except.error _ => false

/-- The messages an outcome attempted to send, delivery outcome dropped. -/
def attempted (o : HandlerOutcome) : List EmailMsg := o.emails.map Prod.fst

/-- The attempted messages carrying the unknown-face alert subject. -/
def alertNotices (o : HandlerOutcome) : List EmailMsg :=
  (attempted o).filter (fun m => m.subject == ALERT_SUBJECT)

/-- An SES stub that always delivers. -/
def sesOk : EmailMsg → Except String Unit := fun _ => Except.ok ()

/-- The empty database. -/
def dbEmpty : DB := DB.mk [] []

-- Helper lemmas -----------------------------------------------------------

theorem planLimitNum_nonneg (p : String) (l : ℤ)
    (h : planLimitNum p = some l) : 0 ≤ l := by
  unfold planLimitNum at h
  split_ifs at h <;> simp only [Option.some.injEq] at h <;> try subst h
  · norm_num
  · norm_num
  · norm_num
  · norm_num

theorem planCeil_spec_nonneg (p : String) : 0 ≤ planCeil_spec p := by
  unfold planCeil_spec planLimitNum
  split_ifs <;> norm_num

theorem planLimitNum_of_num (p : String) (l : ℤ)
    (h : PLAN_LIMITS p = JsVal.num l) : planLimitNum p = some l := by
  unfold PLAN_LIMITS at h
  cases hp : planLimitNum p with
  | some l2 =>
      rw [hp] at h
      injection h with h2
      rw [h2]
  | none =>
      rw [hp] at h
      split_ifs at h

theorem PLAN_LIMITS_num_nonneg (p : String) (l : ℤ)
    (h : PLAN_LIMITS p = JsVal.num l) : 0 ≤ l :=
  planLimitNum_nonneg p l (planLimitNum_of_num p l h)

theorem isProtoKey_false_of_planLimitNum (p : String) (l : ℤ)
    (h : planLimitNum p = some l) : isProtoKey p = false := by
  unfold planLimitNum at h
  split_ifs at h with h1 h2 h3 h4
  · subst h1; decide
  · subst h2; decide
  · subst h3; decide
  · subst h4; decide

theorem jsNumOr_zero (x : ℤ) : jsNumOr x 0 = x := by
  unfold jsNumOr
  split_ifs with h
  · exact h.symm
  · rfl

theorem foldl_add_total (rows : List SummaryRow) (a : ℤ) :
    rows.foldl (fun a b => a + jsNumOr b.total 0) a
      = a + (rows.map SummaryRow.total).sum := by
  induction rows generalizing a with
  | nil => simp
  | cons r rs ih =>
      rw [List.foldl_cons, ih, jsNumOr_zero, List.map_cons, List.sum_cons]
      ring

theorem sendAlertEmail_fst (ses : EmailMsg → Except String Unit)
    (recip subj : String) :
    (sendAlertEmail ses recip subj).1
      = EmailMsg.mk (jsStrOr recip SES_TO_EMAIL) (jsStrOr subj ALERT_SUBJECT) := by
  unfold sendAlertEmail
  cases h : ses (EmailMsg.mk (jsStrOr recip SES_TO_EMAIL) (jsStrOr subj ALERT_SUBJECT)) <;>
    simp [h]

theorem jsStrOr_absorb (s d : String) : jsStrOr (jsStrOr s d) d = jsStrOr s d := by
  unfold jsStrOr
  split_ifs with h1 h2 <;> simp_all

theorem mtdTotal_eq_zero_of_isEmpty (log : List UsageEntry) (user : String)
    (since : Nat) (h : (monthEntries log user since).isEmpty = true) :
    mtdTotal log user since = 0 := by
  unfold mtdTotal
  rw [List.isEmpty_iff.mp h]
  rfl

theorem checkAndTopUp_fires_eq (log : List UsageEntry) (user plan : String)
    (since : Nat) :
    checkAndTopUp_fires log user plan since
      = (!(monthEntries log user since).isEmpty
         && !(decide (mtdTotal log user since = 0))
         && jsGtVal (mtdTotal log user since) (PLAN_LIMITS plan)) := by
  unfold checkAndTopUp_fires sumUsage
  by_cases hm : (monthEntries log user since).isEmpty <;> simp [hm]

theorem checkAndTopUp_public_fires_eq (log : List UsageEntry)
    (user plan : String) (since : Nat) :
    checkAndTopUp_public_fires log user plan since
      = (!(monthEntries log user since).isEmpty
         && !(decide (mtdTotal log user since = 0))
         && jsGtVal (mtdTotal log user since) (jsValOrZero (PLAN_LIMITS plan))) := by
  unfold checkAndTopUp_public_fires sumUsage
  by_cases hm : (monthEntries log user since).isEmpty <;> simp [hm]

theorem guard_absorb (log : List UsageEntry) (user : String) (since : Nat)
    (l : ℤ) (h0 : 0 ≤ l) :
    (!(monthEntries log user since).isEmpty
      && !(decide (mtdTotal log user since = 0))
      && decide (l < mtdTotal log user since))
    = decide (l < mtdTotal log user since) := by
  by_cases hlt : l < mtdTotal log user since
  · have hne : ¬ mtdTotal log user since = 0 := by
      intro h
      rw [h] at hlt
      exact absurd hlt (not_lt.mpr h0)
    have hm2 : (monthEntries log user since).isEmpty = false := by
      cases h : (monthEntries log user since).isEmpty
      · rfl
      · exact absurd (mtdTotal_eq_zero_of_isEmpty log user since h) hne
    simp [hlt, hne, hm2]
  · simp [hlt]

-- Concrete inputs used by witnesses and counterexamples --------------------

/-- A plain successful call: empty plan (defaults to Free), recipient a@x,
no face matches. -/
def inpW1 : TriggerInput :=
  TriggerInput.mk "w.jpg" "" "a@x" (Except.ok ()) (Except.ok []) 4 0

/-- A successful call whose image matches one enrolled face. -/
def inpW2 : TriggerInput :=
  TriggerInput.mk "w.jpg" "Free" "a@x" (Except.ok ()) (Except.ok [FaceMatch.mk 95]) 4 0

/-- A ledger holding one month-to-date charge of 1 USD under the unknown
plan name Gold. -/
def logGold : List UsageEntry := [UsageEntry.mk "u" "Gold" "email" 1000 5]

/-- A database whose ledger already charges u@x 6 USD this month on the
Standard plan (ceiling 5 USD). -/
def dbOverStandard : DB := DB.mk [] [UsageEntry.mk "u@x" "Standard" "email" 6000 1]

/-- A call by u@x on the Standard plan whose image matches a known face. -/
def inpKnown : TriggerInput :=
  TriggerInput.mk "img.jpg" "Standard" "u@x" (Except.ok ())
    (Except.ok [FaceMatch.mk 95]) 2 0

/-- A call whose Rekognition invocation fails. -/
def inpRekogFail : TriggerInput :=
  TriggerInput.mk "img.jpg" "" "" (Except.ok ()) (Except.error "boom") 7 0

/-- A plain successful call with no face matches. -/
def inpPlain : TriggerInput :=
  TriggerInput.mk "a.jpg" "Free" "u@x" (Except.ok ()) (Except.ok []) 3 0

/-- A ledger whose only entry belongs to a different recipient. -/
def logOther : List UsageEntry := [UsageEntry.mk "other@x" "Free" "app" 1 5]

theorem triggerAlert_ok_inserts (db : DB) (inp : TriggerInput)
    (ses : EmailMsg → Except String Unit)
    (h : respOk (triggerAlert db inp ses).response = true) :
    (triggerAlert db inp ses).db.alerts
        = db.alerts ++ [AlertRow.mk (classificationOf inp) inp.now (keyOf inp)] ∧
    (triggerAlert db inp ses).db.usage_log
        = db.usage_log ++
          [UsageEntry.mk (userEmailOf inp) (planOf inp) "email" PRICING_email inp.now,
           UsageEntry.mk (userEmailOf inp) (planOf inp) "app" PRICING_app inp.now] := by
  rcases inp with ⟨onm, pr, er, ur, rr, now, ms⟩
  cases ur with
  | error e => simp [triggerAlert, respOk] at h
  | ok u =>
      constructor <;>
        simp [triggerAlert, classificationOf, keyOf, planOf, userEmailOf]

-- Claim theorems -----------------------------------------------------------

/-- C1: every ingestion call that returns a success result appends exactly
one Alert record and exactly two Usage entries — channel email at its
fixed unit cost 0.002 USD and channel app at its fixed unit cost
0.001 USD — regardless of the match outcome (the input, including the
match list, is universally quantified). -/
theorem trigger_alert_success_inserts (db : DB) (inp : TriggerInput)
    (ses : EmailMsg → Except String Unit)
    (h : respOk (triggerAlert db inp ses).response = true) :
    (triggerAlert db inp ses).db.alerts
        = db.alerts ++ [AlertRow.mk (classificationOf inp) inp.now (keyOf inp)] ∧
    (triggerAlert db inp ses).db.usage_log
        = db.usage_log ++
          [UsageEntry.mk (userEmailOf inp) (planOf inp) "email" PRICING_email inp.now,
           UsageEntry.mk (userEmailOf inp) (planOf inp) "app" PRICING_app inp.now] :=
  triggerAlert_ok_inserts db inp ses h

/-- Witness for C1: on a concrete successful call the two equalities hold. -/
theorem trigger_alert_success_inserts_witness :
    respOk (triggerAlert dbEmpty inpW1 sesOk).response = true ∧
    ((triggerAlert dbEmpty inpW1 sesOk).db.alerts
        = dbEmpty.alerts
          ++ [AlertRow.mk (classificationOf inpW1) inpW1.now (keyOf inpW1)] ∧
     (triggerAlert dbEmpty inpW1 sesOk).db.usage_log
        = dbEmpty.usage_log ++
          [UsageEntry.mk (userEmailOf inpW1) (planOf inpW1) "email" PRICING_email inpW1.now,
           UsageEntry.mk (userEmailOf inpW1) (planOf inpW1) "app" PRICING_app inpW1.now]) :=
  ⟨rfl, trigger_alert_success_inserts dbEmpty inpW1 sesOk rfl⟩

/-- C2: on every successful ingestion call the stored classification is
known_face iff the match list returned by the Face Match Client is
non-empty, unknown_face iff it is empty, and no third value occurs. -/
theorem trigger_alert_classification (db : DB) (inp : TriggerInput)
    (ses : EmailMsg → Except String Unit)
    (h : respOk (triggerAlert db inp ses).response = true) :
    (triggerAlert db inp ses).db.alerts
        = db.alerts ++ [AlertRow.mk (classificationOf inp) inp.now (keyOf inp)] ∧
    (classificationOf inp = "known_face" ↔ detectFaces inp.rekogResult ≠ []) ∧
    (classificationOf inp = "unknown_face" ↔ detectFaces inp.rekogResult = []) ∧
    (classificationOf inp = "known_face" ∨ classificationOf inp = "unknown_face") := by
  refine ⟨(triggerAlert_ok_inserts db inp ses h).1, ?_, ?_, ?_⟩ <;>
    by_cases hf : detectFaces inp.rekogResult = [] <;>
      simp [classificationOf, hf, List.length_pos]

/-- Witness for C2: a concrete call with one face match stores
known_face. -/
theorem trigger_alert_classification_witness :
    respOk (triggerAlert dbEmpty inpW2 sesOk).response = true ∧
    ((triggerAlert dbEmpty inpW2 sesOk).db.alerts
        = dbEmpty.alerts
          ++ [AlertRow.mk (classificationOf inpW2) inpW2.now (keyOf inpW2)] ∧
     (classificationOf inpW2 = "known_face" ↔ detectFaces inpW2.rekogResult ≠ []) ∧
     (classificationOf inpW2 = "unknown_face" ↔ detectFaces inpW2.rekogResult = []) ∧
     (classificationOf inpW2 = "known_face" ∨ classificationOf inpW2 = "unknown_face")) :=
  ⟨rfl, trigger_alert_classification dbEmpty inpW2 sesOk rfl⟩

/-- C3, counterexample: with 1 USD of month-to-date spend for recipient
u, the claim demands a top-up for any unknown plan name (zero-ceiling
default, and 1 USD exceeds 0), but src/server.js compares against an
undefined ceiling at plan Gold and never fires; the public variant also
never fires at the prototype-inherited plan name constructor, whose
lookup yields a truthy inherited function that survives the `|| 0`. -/
theorem topup_unknown_plan_cex :
    checkAndTopUp_fires logGold "u" "Gold" 0 = false ∧
    topUpFires_spec logGold "u" "Gold" 0 = true ∧
    planCeil_spec "Gold" < mtdTotal logGold "u" 0 ∧
    checkAndTopUp_public_fires logGold "u" "constructor" 0 = false ∧
    topUpFires_spec logGold "u" "constructor" 0 = true := by
  refine ⟨by decide, by decide, by decide, by decide, by decide⟩

/-- C3, amended: in src/server.js the top-up fires iff the PLAN_LIMITS
lookup of the declared plan yields an own numeric ceiling (the four known
plan names) that the month-to-date summed cost strictly exceeds; for
every other plan name it never fires, since the lookup yields undefined
or a prototype-inherited member and the JS comparison with either is
false. In src/public/server.js the `PLAN_LIMITS[plan] || 0` default makes
the variant match the claimed zero-ceiling rule exactly for plan names
that are not Object.prototype properties; for prototype-inherited names
(constructor, toString, ...) the truthy inherited member survives the
`|| 0` and that variant never fires either. -/
theorem topup_fires_characterization (log : List UsageEntry)
    (user plan : String) (since : Nat) :
    (checkAndTopUp_fires log user plan since = true
        ↔ ∃ l, PLAN_LIMITS plan = JsVal.num l ∧ l < mtdTotal log user since) ∧
    checkAndTopUp_public_fires log user plan since
        = (!(isProtoKey plan) && topUpFires_spec log user plan since) := by
  constructor
  · rw [checkAndTopUp_fires_eq]
    constructor
    · intro hfire
      rw [Bool.and_eq_true, Bool.and_eq_true] at hfire
      rcases hfire with ⟨⟨-, -⟩, hgt⟩
      cases hv : PLAN_LIMITS plan with
      | num l =>
          rw [hv] at hgt
          exact ⟨l, rfl, by simpa [jsGtVal] using hgt⟩
      | fn =>
          rw [hv] at hgt
          simp [jsGtVal] at hgt
      | undef =>
          rw [hv] at hgt
          simp [jsGtVal] at hgt
    · rintro ⟨l, hv, hlt⟩
      have h0 : (0 : ℤ) ≤ l := PLAN_LIMITS_num_nonneg plan l hv
      have hne : ¬ mtdTotal log user since = 0 := by
        intro h
        rw [h] at hlt
        exact absurd hlt (not_lt.mpr h0)
      have hm2 : (monthEntries log user since).isEmpty = false := by
        cases h : (monthEntries log user since).isEmpty
        · rfl
        · exact absurd (mtdTotal_eq_zero_of_isEmpty log user since h) hne
      simp [hm2, hne, jsGtVal, hv, hlt]
  · rw [checkAndTopUp_public_fires_eq]
    cases hp : planLimitNum plan with
    | some l =>
        have h0 : (0 : ℤ) ≤ l := planLimitNum_nonneg plan l hp
        have hnp : isProtoKey plan = false :=
          isProtoKey_false_of_planLimitNum plan l hp
        have hv : PLAN_LIMITS plan = JsVal.num l := by
          unfold PLAN_LIMITS
          rw [hp]
        have hgt : jsGtVal (mtdTotal log user since) (jsValOrZero (JsVal.num l))
            = decide (l < mtdTotal log user since) := by
          unfold jsValOrZero jsTruthy jsGtVal
          by_cases hl0 : l = 0 <;> simp [hl0]
        rw [hv, hgt, guard_absorb log user since l h0, hnp]
        simp [topUpFires_spec, planCeil_spec, hp]
    | none =>
        have hv : PLAN_LIMITS plan
            = (if plan ∈ protoKeys then JsVal.fn else JsVal.undef) := by
          unfold PLAN_LIMITS
          rw [hp]
        by_cases hpk : plan ∈ protoKeys
        · rw [hv]
          simp [hpk, jsValOrZero, jsTruthy, jsGtVal, isProtoKey]
        · rw [hv]
          have hgt : jsGtVal (mtdTotal log user since) (jsValOrZero JsVal.undef)
              = decide ((0 : ℤ) < mtdTotal log user since) := by
            unfold jsValOrZero jsTruthy jsGtVal
            simp
          simp only [if_neg hpk, hgt,
            guard_absorb log user since 0 le_rfl]
          simp [isProtoKey, hpk, topUpFires_spec, planCeil_spec, hp]

/-- C4, counterexample: a call by u@x on the Standard plan whose image
matches a known face, with 6 USD already on the ledger this month, sends
the top-up notification to u@x even though the classification is
known_face — so a notification to recipient_email does occur on a
known_face call. -/
theorem known_face_topup_notification_cex :
    classificationOf inpKnown = "known_face" ∧
    attempted (triggerAlert dbOverStandard inpKnown sesOk)
      = [EmailMsg.mk "u@x" TOPUP_SUBJECT] := by
  refine ⟨rfl, by decide⟩

/-- C4, amended: on every call that reaches the notification step, the
unknown-face alert notification is sent to recipient_email iff the
classification is unknown_face; however every message the call attempts
goes to recipient_email and is either that alert or the top-up notice, so
a top-up notification can still reach recipient_email on a known_face
call. -/
theorem notifications_to_recipient (db : DB) (inp : TriggerInput)
    (ses : EmailMsg → Except String Unit) :
    alertNotices (triggerAlert db { inp with uploadResult := Except.ok () } ses)
      = (if detectFaces inp.rekogResult = []
         then [EmailMsg.mk (userEmailOf inp) ALERT_SUBJECT] else []) ∧
    (attempted (triggerAlert db { inp with uploadResult := Except.ok () } ses)).all
      (fun m => m.toAddr == userEmailOf inp
        && (m.subject == ALERT_SUBJECT || m.subject == TOPUP_SUBJECT)) = true := by
  rcases inp with ⟨onm, pr, er, ur, rr, now, ms⟩
  have hto : jsStrOr (userEmailOf (TriggerInput.mk onm pr er ur rr now ms)) SES_TO_EMAIL
      = userEmailOf (TriggerInput.mk onm pr er ur rr now ms) := by
    unfold userEmailOf
    exact jsStrOr_absorb er SES_TO_EMAIL
  by_cases hf : detectFaces rr = [] <;>
    simp [triggerAlert, alertNotices, attempted, sendAlertEmail_fst, hto,
      userEmailOf, classificationOf, hf, List.length_pos, jsStrOr,
      ALERT_SUBJECT, TOPUP_SUBJECT, apply_ite (List.map Prod.fst),
      List.all_append, List.filter_append] <;>
    split_ifs <;>
    simp_all [jsStrOr]

/-- C5, counterexample: when the Rekognition call fails with message boom,
the ingestion does not return a failure result: it succeeds with an empty
match list and records the default classification unknown_face. -/
theorem face_match_failure_not_propagated_cex :
    inpRekogFail.rekogResult = Except.error "boom" ∧
    (triggerAlert dbEmpty inpRekogFail sesOk).response
      = Except.ok (TriggerResult.mk true [] "uploads/7_img.jpg") ∧
    (triggerAlert dbEmpty inpRekogFail sesOk).db.alerts
      = [AlertRow.mk "unknown_face" 7 "uploads/7_img.jpg"] :=
  ⟨rfl, rfl, rfl⟩

/-- C5, amended: a Face Match Client failure is caught inside detectFaces
and treated as an empty match list, so the ingestion returns a success
result with faces = [] and stores the default classification
unknown_face; only an Object Store failure propagates as a failure result
carrying the underlying error message. -/
theorem face_match_failure_swallowed (db : DB) (inp : TriggerInput)
    (ses : EmailMsg → Except String Unit) (e : String) :
    (triggerAlert db
        { inp with uploadResult := Except.ok (), rekogResult := Except.error e }
        ses).response
      = Except.ok (TriggerResult.mk true [] (keyOf inp)) ∧
    (triggerAlert db
        { inp with uploadResult := Except.ok (), rekogResult := Except.error e }
        ses).db.alerts
      = db.alerts ++ [AlertRow.mk "unknown_face" inp.now (keyOf inp)] ∧
    (triggerAlert db { inp with uploadResult := Except.error e } ses).response
      = Except.error e := by
  rcases inp with ⟨onm, pr, er, ur, rr, now, ms⟩
  refine ⟨?_, ?_, ?_⟩ <;> simp [triggerAlert, detectFaces, keyOf]

/-- C6, counterexample: on a concrete successful call, src/server.js
writes the image to the Object Store first (event index 0) and only then
invokes the Face Match Client (event index 1), so the Coordinator does
not classify before persisting. -/
theorem persist_before_classify_cex :
    classifyBeforePersist (triggerAlert dbEmpty inpPlain sesOk).events = false ∧
    (triggerAlert dbEmpty inpPlain sesOk).events.findIdx isUploadEvent = 0 ∧
    (triggerAlert dbEmpty inpPlain sesOk).events.findIdx isRekogEvent = 1 := by
  refine ⟨by decide, by decide, by decide⟩

/-- C6, amended: src/server.js always persists the image before invoking
the Face Match Client, while the src/public/server.js variant classifies
before persisting as the claim states; in both variants an Object Store
failure yields no database write and no stored object, and in the public
variant the classification step has already run when that failure is
reported. -/
theorem call_order_and_failure (db : DB) (inp : TriggerInput)
    (ses : EmailMsg → Except String Unit) (e : String) :
    classifyBeforePersist (triggerAlert db inp ses).events = false ∧
    classifyBeforePersist (triggerAlert_public db inp ses).events = true ∧
    (triggerAlert db { inp with uploadResult := Except.error e } ses).db = db ∧
    (triggerAlert db { inp with uploadResult := Except.error e } ses).stored = [] ∧
    (triggerAlert_public db { inp with uploadResult := Except.error e } ses).db = db ∧
    (triggerAlert_public db { inp with uploadResult := Except.error e } ses).stored = [] ∧
    (triggerAlert_public db { inp with uploadResult := Except.error e } ses).events
      = [Event.rekogSearch, Event.s3Upload (keyOf inp)] := by
  rcases inp with ⟨onm, pr, er, ur, rr, now, ms⟩
  refine ⟨?_, ?_, ?_, ?_, ?_, ?_, ?_⟩ <;>
    cases ur <;>
      simp [triggerAlert, triggerAlert_public, classifyBeforePersist,
        isUploadEvent, isRekogEvent, List.findIdx_cons, keyOf]

/-- C7: usage-summary for a recipient with zero Usage entries in the
current month returns total cost 0 and an empty details list. -/
theorem usage_summary_empty_month (log : List UsageEntry) (email : String)
    (since : Nat) (h : monthEntries log email since = []) :
    usageSummary log email since = Summary.mk email 0 [] := by
  unfold usageSummary
  rw [h]
  rfl

/-- Witness for C7: a ledger whose only entry belongs to someone else
yields total 0 and no details. -/
theorem usage_summary_empty_month_witness :
    monthEntries logOther "u@x" 0 = [] ∧
    usageSummary logOther "u@x" 0 = Summary.mk "u@x" 0 [] :=
  ⟨rfl, usage_summary_empty_month logOther "u@x" 0 rfl⟩

/-- C8: usage-reset deletes every row of the Usage Ledger, and an
immediately following usage-summary for any recipient returns total cost
0 with an empty details list. -/
theorem usage_reset_then_summary_zero (db : DB) (email : String)
    (since : Nat) :
    (usageReset db).usage_log = [] ∧
    usageSummary (usageReset db).usage_log email since
      = Summary.mk email 0 [] :=
  ⟨rfl, rfl⟩

/-- C9: the ingestion outcome is independent of the Notification Client:
for any two SES behaviors the database, the stored objects, the response,
the event trace and the attempted messages coincide, so a notification
failure is never propagated and changes no prior write. -/
theorem notification_failure_isolated (db : DB) (inp : TriggerInput)
    (ses ses2 : EmailMsg → Except String Unit) :
    (triggerAlert db inp ses).db = (triggerAlert db inp ses2).db ∧
    (triggerAlert db inp ses).stored = (triggerAlert db inp ses2).stored ∧
    (triggerAlert db inp ses).response = (triggerAlert db inp ses2).response ∧
    (triggerAlert db inp ses).events = (triggerAlert db inp ses2).events ∧
    attempted (triggerAlert db inp ses) = attempted (triggerAlert db inp ses2) := by
  rcases inp with ⟨onm, pr, er, ur, rr, now, ms⟩
  cases ur with
  | error e => refine ⟨rfl, rfl, rfl, rfl, rfl⟩
  | ok u =>
      refine ⟨rfl, rfl, rfl, ?_, ?_⟩ <;>
        simp [triggerAlert, attempted, sendAlertEmail_fst] <;>
          split_ifs <;> simp [sendAlertEmail_fst]

/-- C10: the total cost reported by usage-summary equals the sum of the
per-channel totals of its detail rows (missing totals counted as 0 by the
reduce). -/
theorem usage_summary_total_eq_details_sum (log : List UsageEntry)
    (email : String) (since : Nat) :
    (usageSummary log email since).total_cost_usd
      = ((usageSummary log email since).details.map SummaryRow.total).sum := by
  unfold usageSummary
  simp [foldl_add_total]

end SpotAlert
